import Mathlib

/-!
Shallow embedding of TSResultify (src/src/result.ts, duplicated in
src/unnamed/part_000): a two-variant `Result` type (`Pass`/`Fail`) with its
combinators, and the two exception adapters `resultify` and
`resultifyPromise`.

JavaScript runtime values that can be stored, returned or thrown are modelled
by `JSValue`; numbers carry an explicit NaN case so that `Number.isNaN` is
expressible. `Error` instances are modelled by `JSError` (name + message),
since every error class in the source stores its payload only through the
rendered `message` string. A possibly-throwing computation is modelled by
`Except JSValue`; a settled promise by `Except JSValue JSValue`
(`.ok` = resolved, `.error` = rejected).
-/

/-- A JavaScript number: either NaN or an ordinary (here: integral) value.
The source never does arithmetic; only the NaN test and stringification
matter. -/
inductive JSNum where
  | nan
  | int (n : Int)
deriving DecidableEq, Repr

/-- An Error instance: `name` and `message` fields, as produced by the error
classes in result.ts (each constructor calls `super(msg)` and sets `name`). -/
structure JSError where
  name : String
  message : String
deriving DecidableEq, Repr

/-- A dynamic JavaScript value, as far as the library observes it. -/
inductive JSValue where
  | num (n : JSNum)
  | str (s : String)
  | bool (b : Bool)
  | undef
  | null
  | error (e : JSError)
  | obj
deriving DecidableEq, Repr

/-- Template-literal stringification of a `JSValue`, modelling the coercion
performed by the backtick strings in the error-class constructors. -/
def jsToString : JSValue → String
  | .num .nan => "NaN"
  | .num (.int n) => toString n
  | .str s => s
  | .bool true => "true"
  | .bool false => "false"
  | .undef => "undefined"
  | .null => "null"
  | .error e => if e.message = "" then e.name else e.name ++ ": " ++ e.message
  | .obj => "[object Object]"

/-- The test `err instanceof Error` of the catch clause in `resultify`. -/
def JSValue.isError : JSValue → Bool
  | .error _ => true
  | _ => false

/-- The test `Number.isNaN(result)` in `resultify` (no coercion: it is true
only on the NaN number). -/
def jsIsNaN : JSValue → Bool
  | .num .nan => true
  | _ => false

/-- class UnwrappedFailError extends Error: name "UnwrappedFailError" and a
message rendering the unwrapped error. -/
def UnwrappedFailError (err : JSValue) : JSError :=
  { name := "UnwrappedFailError"
    message := "Attempted to unwrap Fail with inner error = " ++ jsToString err ++ ")" }

/-- class ExpectFailError extends Error: name "ExpectFailError" and a message
rendering the Pass value. -/
def ExpectFailError (val : JSValue) : JSError :=
  { name := "ExpectFailError"
    message := "Expected variant Fail, got Pass with inner value = " ++ jsToString val ++ ")" }

/-- class NaNError extends Error: `super()` is called with no argument, so the
message is the empty string; the name is set to "NaNError". -/
def NaNError : JSError :=
  { name := "NaNError", message := "" }

/-- class ResultifyFailError extends Error: name "ResultifyFailError" and a
message rendering the non-Error thrown value. -/
def ResultifyFailError (value : JSValue) : JSError :=
  { name := "ResultifyFailError"
    message := "Failed resultify threw non-error value: " ++ jsToString value }

/-- Result<T, E> = Pass<T> | Fail<E>: the closed two-variant outcome type. -/
inductive Result (T E : Type) where
  | Pass (value : T)
  | Fail (error : E)
deriving DecidableEq, Repr

namespace Result

variable {T E U V F : Type}

/-- passed(): true on Pass, false on Fail (dynamic dispatch over the two
subclasses). -/
def passed : Result T E → Bool
  | .Pass _ => true
  | .Fail _ => false

/-- failed(): return !this.passed(). -/
def failed (r : Result T E) : Bool :=
  !r.passed

/-- unwrap(): the Pass value, or throw new UnwrappedFailError(this.error).
Stored payloads are dynamic, so the error side is `JSValue`; the thrown
error is the `.error` of the `Except`. -/
def unwrap : Result T JSValue → Except JSError T
  | .Pass v => .ok v
  | .Fail e => .error (UnwrappedFailError e)

/-- expectFail(): the Fail error, or throw new ExpectFailError(this.value). -/
def expectFail : Result JSValue E → Except JSError E
  | .Pass v => .error (ExpectFailError v)
  | .Fail e => .ok e

/-- map(f): Pass(f(value)) on Pass, the same Fail on Fail. -/
def map (f : T → U) : Result T E → Result U E
  | .Pass v => .Pass (f v)
  | .Fail e => .Fail e

/-- mapErr(f): Fail(f(error)) on Fail, the same Pass on Pass. -/
def mapErr (f : E → F) : Result T E → Result T F
  | .Pass v => .Pass v
  | .Fail e => .Fail (f e)

/-- flatMap(f): f(value) on Pass, the same Fail on Fail. -/
def flatMap (f : T → Result U E) : Result T E → Result U E
  | .Pass v => f v
  | .Fail e => .Fail e

/-- flatMapErr(f): f(error) on Fail, the same Pass on Pass. -/
def flatMapErr (f : E → Result T F) : Result T E → Result T F
  | .Pass v => .Pass v
  | .Fail e => f e

/-- andThen = this.flatMap (alias in result.ts; a method of its own with the
identical body in part_000). -/
def andThen (r : Result T E) (f : T → Result U E) : Result U E :=
  r.flatMap f

/-- orElse = this.flatMapErr. -/
def orElse (r : Result T E) (f : E → Result T F) : Result T F :=
  r.flatMapErr f

/-- nullify(): this.passed() ? this.unwrap() : undefined. The TS return type
T | undefined is a dynamic value, so this is modelled on `JSValue` payloads:
the undefined returned on Fail is the same value as a stored undefined. -/
def nullify : Result JSValue E → JSValue
  | .Pass v => v
  | .Fail _ => JSValue.undef

end Result

/-- The behaviour of a synchronous caller-supplied function at its given
arguments: it either returns a value or throws one. -/
inductive CallOutcome where
  | ret (v : JSValue)
  | throws (v : JSValue)
deriving DecidableEq, Repr

/-- The try-block body of `resultify`: compute `f(...args)` (whose throw
propagates), then `if (Number.isNaN(result)) throw new NaNError(); else
return new Pass(result)`. -/
def tryBody (call : CallOutcome) : Except JSValue (Result JSValue JSValue) :=
  match call with
  | .ret result =>
      if jsIsNaN result then
        .error (.error NaNError)
      else
        .ok (.Pass result)
  | .throws v => .error v

/-- The catch clause of `resultify`: `if (err instanceof Error) return new
Fail(err); else return new Fail(new ResultifyFailError(err))`. -/
def catchClause (err : JSValue) : Except JSValue (Result JSValue JSValue) :=
  if err.isError then
    .ok (.Fail err)
  else
    .ok (.Fail (.error (ResultifyFailError err)))

/-- resultify(f, ...args): run the try body; any thrown value is handled by
the catch clause. `.ok r` is a normal return of the Result `r`; `.error v`
would be a value thrown out of `resultify` itself. -/
def resultifyRun (call : CallOutcome) : Except JSValue (Result JSValue JSValue) :=
  match tryBody call with
  | .ok r => .ok r
  | .error e => catchClause e

/-- Promise.prototype.then with only an onFulfilled handler: a rejection
passes through; the handler may itself throw, rejecting the new promise. -/
def jsThen {α β : Type} (p : Except JSValue α) (onFulfilled : α → Except JSValue β) :
    Except JSValue β :=
  match p with
  | .ok v => onFulfilled v
  | .error e => .error e

/-- Promise.prototype.catch: a fulfilled value passes through; the handler
runs on the rejection value and may itself throw. -/
def jsCatch {α : Type} (p : Except JSValue α) (onRejected : JSValue → Except JSValue α) :
    Except JSValue α :=
  match p with
  | .ok v => .ok v
  | .error e => onRejected e

/-- The .then handler of `resultifyPromise`:
`if (resultify(() => value).failed()) throw value; else return new
Pass(value)`. The inner `resultify` call is the embedded `resultifyRun` on a
function that returns `value`. -/
def thenHandler (value : JSValue) : Except JSValue (Result JSValue JSValue) :=
  match resultifyRun (.ret value) with
  | .ok r => if r.failed then .error value else .ok (.Pass value)
  | .error e => .error e

/-- The .catch handler of `resultifyPromise`:
`return resultify(() => {throw err;})`. -/
def promiseCatchHandler (err : JSValue) : Except JSValue (Result JSValue JSValue) :=
  resultifyRun (.throws err)

/-- resultifyPromise(asyncFn, ...args) once the inner promise has settled
(`.ok v` = resolved with v, `.error v` = rejected with v): the source chains
`asyncFn(...args).then(thenHandler).catch(promiseCatchHandler)`. The value
`.ok r` means the returned promise resolves with the Result `r`; `.error v`
would mean it rejects. -/
def resultifyPromiseRun (p : Except JSValue JSValue) :
    Except JSValue (Result JSValue JSValue) :=
  jsCatch (jsThen p thenHandler) promiseCatchHandler

/-- The message of an adapter/misuse error contains a rendering of the
offending value: `sub` occurs as a contiguous substring of `msg`. -/
def ContainsRender (msg sub : String) : Prop :=
  ∃ pre post, pre ++ sub ++ post = msg

/-- C2: resultify produces Pass(returnValue) when the call completes with a
non-NaN value, passes a thrown Error through as the very same Fail payload,
and wraps a thrown non-Error value in a ResultifyFailError whose message
contains a rendering of that value. -/
theorem resultify_classification (v e w : JSValue)
    (hv : jsIsNaN v = false) (he : e.isError = true) (hw : w.isError = false) :
    resultifyRun (.ret v) = .ok (.Pass v) ∧
    resultifyRun (.throws e) = .ok (.Fail e) ∧
    resultifyRun (.throws w) = .ok (.Fail (.error (ResultifyFailError w))) ∧
    ContainsRender (ResultifyFailError w).message (jsToString w) := by
  refine ⟨?_, ?_, ?_, ?_⟩
  · simp [resultifyRun, tryBody, hv]
  · simp [resultifyRun, tryBody, catchClause, he]
  · simp [resultifyRun, tryBody, catchClause, hw]
  · exact ⟨"Failed resultify threw non-error value: ", "", by simp [ResultifyFailError]⟩

/-- Witness for C2 at a call returning 42, one throwing an Error, and one
throwing the bare string "boom". -/
theorem resultify_classification_witness :
    resultifyRun (.ret (.num (.int 42))) = .ok (.Pass (.num (.int 42))) ∧
    resultifyRun (.throws (.error ⟨"Error", "fallible"⟩)) =
      .ok (.Fail (.error ⟨"Error", "fallible"⟩)) ∧
    resultifyRun (.throws (.str "boom")) =
      .ok (.Fail (.error (ResultifyFailError (.str "boom")))) ∧
    ContainsRender (ResultifyFailError (.str "boom")).message (jsToString (.str "boom")) :=
  resultify_classification _ _ _ rfl rfl rfl

/-- C3: a rejected promise is classified by resultifyPromise exactly as
resultify classifies a synchronous throw: an Error rejection passes through
as the same Fail payload, a non-Error rejection is wrapped in a
ResultifyFailError whose message contains a rendering of the value. -/
theorem resultifyPromise_reject_classification (x e v : JSValue)
    (he : e.isError = true) (hv : v.isError = false) :
    resultifyPromiseRun (.error x) = resultifyRun (.throws x) ∧
    resultifyPromiseRun (.error e) = .ok (.Fail e) ∧
    resultifyPromiseRun (.error v) = .ok (.Fail (.error (ResultifyFailError v))) ∧
    ContainsRender (ResultifyFailError v).message (jsToString v) := by
  refine ⟨rfl, ?_, ?_, ?_⟩
  · simp [resultifyPromiseRun, jsThen, jsCatch, promiseCatchHandler, resultifyRun,
      tryBody, catchClause, he]
  · simp [resultifyPromiseRun, jsThen, jsCatch, promiseCatchHandler, resultifyRun,
      tryBody, catchClause, hv]
  · exact ⟨"Failed resultify threw non-error value: ", "", by simp [ResultifyFailError]⟩

/-- Witness for C3 at a rejection with an Error and a rejection with the bare
string "x". -/
theorem resultifyPromise_reject_classification_witness :
    resultifyPromiseRun (.error (.str "x")) = resultifyRun (.throws (.str "x")) ∧
    resultifyPromiseRun (.error (.error ⟨"Error", "oops"⟩)) =
      .ok (.Fail (.error ⟨"Error", "oops"⟩)) ∧
    resultifyPromiseRun (.error (.str "x")) =
      .ok (.Fail (.error (ResultifyFailError (.str "x")))) ∧
    ContainsRender (ResultifyFailError (.str "x")).message (jsToString (.str "x")) :=
  resultifyPromise_reject_classification _ _ _ rfl rfl

/-- C4: the adapters never let a raised value escape and deliver every
exceptional path as a Fail payload: resultify always returns a Result, and a
Fail whenever the call throws (whatever value it throws); resultifyPromise's
returned promise always resolves with a Result (never rejects), resolves with
a Fail on every rejection, and also resolves with a Fail on the internal
exceptional path where the promise resolves with NaN and the adapter
re-throws it. -/
theorem adapters_never_throw (call : CallOutcome) (p : Except JSValue JSValue) :
    (∃ r, resultifyRun call = .ok r) ∧
    (∀ v, ∃ e, resultifyRun (.throws v) = .ok (.Fail e)) ∧
    (∃ r, resultifyPromiseRun p = .ok r) ∧
    (∀ v, ∃ e, resultifyPromiseRun (.error v) = .ok (.Fail e)) ∧
    (∃ e, resultifyPromiseRun (.ok (.num .nan)) = .ok (.Fail e)) := by
  have hc : ∀ e, ∃ r, catchClause e = .ok r := by
    intro e
    unfold catchClause
    split <;> exact ⟨_, rfl⟩
  have hcf : ∀ v, ∃ e, catchClause v = .ok (.Fail e) := by
    intro v
    unfold catchClause
    split
    · exact ⟨v, rfl⟩
    · exact ⟨.error (ResultifyFailError v), rfl⟩
  have hr : ∀ c, ∃ r, resultifyRun c = .ok r := by
    intro c
    unfold resultifyRun
    cases htb : tryBody c with
    | ok r => exact ⟨r, rfl⟩
    | error e => simpa using hc e
  have hrf : ∀ v, ∃ e, resultifyRun (.throws v) = .ok (.Fail e) := by
    intro v
    simpa [resultifyRun, tryBody] using hcf v
  have hpf : ∀ v, ∃ e, resultifyPromiseRun (.error v) = .ok (.Fail e) := by
    intro v
    simpa [resultifyPromiseRun, jsThen, jsCatch, promiseCatchHandler] using hrf v
  refine ⟨hr call, hrf, ?_, hpf, ?_⟩
  · cases p with
    | error e =>
        simpa [resultifyPromiseRun, jsThen, jsCatch, promiseCatchHandler] using hr (.throws e)
    | ok v =>
        obtain ⟨r, hrv⟩ := hr (.ret v)
        cases hf : r.failed with
        | true =>
            simpa [resultifyPromiseRun, jsThen, jsCatch, thenHandler, hrv, hf,
              promiseCatchHandler] using hr (.throws v)
        | false =>
            simp [resultifyPromiseRun, jsThen, jsCatch, thenHandler, hrv, hf]
  · exact ⟨.error (ResultifyFailError (.num .nan)), rfl⟩

/-- C5: Pass(v).unwrap() returns v and Fail(e).expectFail() returns e; the
mismatched accessors throw the misuse errors, carrying the stable name and a
message that renders the stored payload. -/
theorem unwrap_expectFail_contract (v e : JSValue) :
    (Result.Pass v : Result JSValue JSValue).unwrap = .ok v ∧
    (Result.Fail e : Result JSValue JSValue).expectFail = .ok e ∧
    ((Result.Fail e : Result JSValue JSValue).unwrap = .error (UnwrappedFailError e) ∧
      (UnwrappedFailError e).name = "UnwrappedFailError" ∧
      ContainsRender (UnwrappedFailError e).message (jsToString e)) ∧
    ((Result.Pass v : Result JSValue JSValue).expectFail = .error (ExpectFailError v) ∧
      (ExpectFailError v).name = "ExpectFailError" ∧
      ContainsRender (ExpectFailError v).message (jsToString v)) :=
  ⟨rfl, rfl,
    ⟨rfl, rfl, ⟨"Attempted to unwrap Fail with inner error = ", ")", rfl⟩⟩,
    ⟨rfl, rfl, ⟨"Expected variant Fail, got Pass with inner value = ", ")", rfl⟩⟩⟩

/-- C1 counterexample: a promise resolving with NaN does not yield
Fail(NaNError); inside resultifyPromise the raw NaN is re-thrown and captured
by the non-Error classification, so the adapter yields
Fail(ResultifyFailError(NaN)). -/
theorem resultifyPromise_nan_not_nanerror :
    resultifyPromiseRun (.ok (.num .nan)) =
      .ok (.Fail (.error (ResultifyFailError (.num .nan)))) ∧
    resultifyPromiseRun (.ok (.num .nan)) ≠ .ok (.Fail (.error NaNError)) := by
  refine ⟨rfl, ?_⟩
  intro h
  rw [show resultifyPromiseRun (.ok (.num .nan)) =
      .ok (.Fail (.error (ResultifyFailError (.num .nan)))) from rfl] at h
  simp [ResultifyFailError, NaNError] at h

/-- C1 (amended): a promise resolving with a non-NaN value yields
Pass(resolvedValue); a resolution with the NaN number yields
Fail(ResultifyFailError(NaN)) — not Fail(NaNError) — because the adapter
re-throws the raw resolved value and its catch path wraps the non-Error NaN. -/
theorem resultifyPromise_resolve_classification (v w : JSValue)
    (hv : jsIsNaN v = true) (hw : jsIsNaN w = false) :
    resultifyPromiseRun (.ok v) = .ok (.Fail (.error (ResultifyFailError v))) ∧
    resultifyPromiseRun (.ok w) = .ok (.Pass w) := by
  constructor
  · have hv' : v = .num .nan := by
      cases v with
      | num n => cases n with
        | nan => rfl
        | int m => simp [jsIsNaN] at hv
      | str s => simp [jsIsNaN] at hv
      | bool b => simp [jsIsNaN] at hv
      | undef => simp [jsIsNaN] at hv
      | null => simp [jsIsNaN] at hv
      | error e => simp [jsIsNaN] at hv
      | obj => simp [jsIsNaN] at hv
    subst hv'
    rfl
  · simp [resultifyPromiseRun, jsThen, jsCatch, thenHandler, resultifyRun, tryBody,
      hw, Result.failed, Result.passed]

/-- Witness for the amended C1 at the NaN resolution and at a resolution
with 7. -/
theorem resultifyPromise_resolve_classification_witness :
    resultifyPromiseRun (.ok (.num .nan)) =
      .ok (.Fail (.error (ResultifyFailError (.num .nan)))) ∧
    resultifyPromiseRun (.ok (.num (.int 7))) = .ok (.Pass (.num (.int 7))) :=
  resultifyPromise_resolve_classification _ _ rfl rfl

/-- C6 counterexample: the claimed equivalence "Fail(NaNError) iff the call
completed normally returning NaN" is false: a call that throws a NaNError
value also yields Fail(NaNError) without completing normally. -/
theorem resultify_nanerror_iff_refuted :
    ¬ ∀ call : CallOutcome,
        (resultifyRun call = .ok (.Fail (.error NaNError)) ↔
          ∃ u, call = .ret u ∧ jsIsNaN u = true) := by
  intro h
  have h2 := (h (.throws (.error NaNError))).mp rfl
  obtain ⟨u, hu, _⟩ := h2
  exact CallOutcome.noConfusion hu

/-- C6 (amended): resultify yields Fail(NaNError) exactly when the call
completes normally returning the NaN number, or the call itself throws a
NaNError value; in particular a completed call with a non-NaN (hence any
non-numeric) return value is never classified as a NaN-failure. -/
theorem resultify_fail_nanerror_iff (call : CallOutcome) :
    resultifyRun call = .ok (.Fail (.error NaNError)) ↔
      ((∃ u, call = .ret u ∧ jsIsNaN u = true) ∨ call = .throws (.error NaNError)) := by
  cases call with
  | ret v =>
      cases hv : jsIsNaN v with
      | true =>
          simp [resultifyRun, tryBody, catchClause, hv, JSValue.isError]
      | false =>
          simp [resultifyRun, tryBody, hv]
  | throws x =>
      cases hx : x.isError with
      | true =>
          cases x with
          | error je =>
              simp [resultifyRun, tryBody, catchClause, JSValue.isError]
          | num n => simp [JSValue.isError] at hx
          | str s => simp [JSValue.isError] at hx
          | bool b => simp [JSValue.isError] at hx
          | undef => simp [JSValue.isError] at hx
          | null => simp [JSValue.isError] at hx
          | obj => simp [JSValue.isError] at hx
      | false =>
          have h1 : ResultifyFailError x ≠ NaNError := by
            intro h
            have hn := congrArg JSError.name h
            simp only [ResultifyFailError, NaNError] at hn
            exact absurd hn (by decide)
          have h2 : x ≠ .error NaNError := by
            intro h
            subst h
            simp [JSValue.isError] at hx
          simp [resultifyRun, tryBody, catchClause, hx, h1, h2]

/-- C7: passed() and failed() are complementary and never both true:
Pass(v).passed() is true and Pass(v).failed() is false, Fail(e).passed() is
false and Fail(e).failed() is true, and failed() is the negation of passed()
on every Result instance. -/
theorem passed_failed_complementary {T E : Type} (v : T) (e : E) :
    (Result.Pass v : Result T E).passed = true ∧
    (Result.Pass v : Result T E).failed = false ∧
    (Result.Fail e : Result T E).passed = false ∧
    (Result.Fail e : Result T E).failed = true ∧
    ∀ r : Result T E, r.failed = !r.passed :=
  ⟨rfl, rfl, rfl, rfl, fun _ => rfl⟩

/-- C8: flatMap (aliased as andThen) is associative:
(a.flatMap f).flatMap g equals a.flatMap (x => f(x).flatMap g) in variant and
payload, for every Result and every pair of continuations. -/
theorem flatMap_assoc {T U V E : Type} (a : Result T E)
    (f : T → Result U E) (g : U → Result V E) :
    (a.flatMap f).flatMap g = a.flatMap (fun x => (f x).flatMap g) ∧
    a.andThen f = a.flatMap f := by
  cases a <;> exact ⟨rfl, rfl⟩

/-- C9 counterexample: NaNError is constructed with `super()` and no message
argument, so its message is the empty string, not a non-empty human-readable
message. -/
theorem nanerror_message_empty : NaNError.message = "" := rfl

/-- C9 (amended): every exported failure kind exposes its stable name;
UnwrappedFailError, ExpectFailError and ResultifyFailError additionally carry
a non-empty message for every constructor argument, while NaNError's message
is empty. -/
theorem error_kinds_identifiers (v e w : JSValue) :
    (UnwrappedFailError e).name = "UnwrappedFailError" ∧
    (UnwrappedFailError e).message ≠ "" ∧
    (ExpectFailError v).name = "ExpectFailError" ∧
    (ExpectFailError v).message ≠ "" ∧
    (ResultifyFailError w).name = "ResultifyFailError" ∧
    (ResultifyFailError w).message ≠ "" ∧
    NaNError.name = "NaNError" ∧ NaNError.message = "" := by
  refine ⟨rfl, ?_, rfl, ?_, rfl, ?_, rfl, rfl⟩
  · intro h
    have hlen := congrArg String.length h
    rw [UnwrappedFailError] at hlen
    simp only [String.length_append, String.length_empty] at hlen
    have hp : 0 < ("Attempted to unwrap Fail with inner error = " : String).length := by decide
    omega
  · intro h
    have hlen := congrArg String.length h
    rw [ExpectFailError] at hlen
    simp only [String.length_append, String.length_empty] at hlen
    have hp : 0 < ("Expected variant Fail, got Pass with inner value = " : String).length := by decide
    omega
  · intro h
    have hlen := congrArg String.length h
    rw [ResultifyFailError] at hlen
    simp only [String.length_append, String.length_empty] at hlen
    have hp : 0 < ("Failed resultify threw non-error value: " : String).length := by decide
    omega

/-- C10: nullify cannot distinguish a success holding undefined from any
failure: Pass(undefined).nullify() is undefined, which equals
Fail(e).nullify() for every error e. -/
theorem nullify_undef_collapse (e : JSValue) :
    (Result.Pass JSValue.undef : Result JSValue JSValue).nullify = JSValue.undef ∧
    (Result.Fail e : Result JSValue JSValue).nullify = JSValue.undef ∧
    (Result.Pass JSValue.undef : Result JSValue JSValue).nullify =
      (Result.Fail e : Result JSValue JSValue).nullify :=
  ⟨rfl, rfl, rfl⟩
